import Mathlib

/-!
Verification development for the Comic-Sync server (src/app.py).

The Python source is shallowly embedded: the mutable global registries
(rooms_data, browser_instances, user_sessions) become an explicit
ServerState record threaded through the socket handlers; each handler becomes
a pure function from state and payload to an Except value (Except.error
models a Python exception escaping the handler, here always a KeyError
from a missing payload field); socketio.emit calls become an explicit list
of Emit records returned by the handler.  The per-room FullVirtualBrowser
object becomes a record; asyncio.run_coroutine_threadsafe scheduling of a
browser coroutine onto the browser thread's event loop is modelled by
appending the corresponding Command to the browser's pending list (the
event loop executes scheduled callbacks in FIFO submission order), and the
loop consuming one scheduled coroutine is modelled by drainOne.
-/

namespace ComicSync

/-- Control commands, one per browser input method of FullVirtualBrowser
(scroll_to, scroll_by, click_at, navigate_to, type_text, press_key,
key_combination, go_back, go_forward, reload in src/app.py). -/
inductive Command where
  | scroll (x y : Int)
  | scrollBy (dx dy : Int)
  | click (x y : Int)
  | navigate (url : String)
  | typeText (text : String)
  | keyPress (key : String)
  | keyCombo (keys : List String)
  | back
  | forward
  | reload
  deriving DecidableEq, Repr

/-- State of one FullVirtualBrowser object (src/app.py lines 31-47).
hasLoop models `self.loop is not None` and hasPage models
`self.page is not None`; pending models the FIFO of coroutines scheduled
on the browser thread's event loop and not yet executed. -/
structure FullVirtualBrowser where
  room_code : String
  url : String
  is_running : Bool
  hasLoop : Bool
  hasPage : Bool
  current_url : String
  page_title : String
  can_go_back : Bool
  can_go_forward : Bool
  is_loading : Bool
  user_is_typing_url : Bool
  pending : List Command
  deriving DecidableEq, Repr

namespace FullVirtualBrowser

/-- FullVirtualBrowser.__init__(room_code, url): all flags false, loop and
page not yet created, current_url initialised to the requested url. -/
def init (room_code url : String) : FullVirtualBrowser :=
  { room_code := room_code
    url := url
    is_running := false
    hasLoop := false
    hasPage := false
    current_url := url
    page_title := ""
    can_go_back := false
    can_go_forward := false
    is_loading := false
    user_is_typing_url := false
    pending := [] }

/-- FullVirtualBrowser.start (lines 49-62): spawns the browser thread and
returns True.  The thread's own effects (creating the loop, reaching
is_running = True) happen asynchronously and are not part of this
synchronous call, so the returned object is unchanged. -/
def start (b : FullVirtualBrowser) : FullVirtualBrowser × Bool :=
  (b, true)

/-- FullVirtualBrowser.navigate_to (lines 335-337): schedules _navigate on
the loop only when `self.loop and self.is_running` is truthy. -/
def navigate_to (b : FullVirtualBrowser) (u : String) : FullVirtualBrowser :=
  if b.hasLoop && b.is_running then
    { b with pending := b.pending ++ [Command.navigate u] }
  else b

/-- FullVirtualBrowser.go_back (lines 351-353). -/
def go_back (b : FullVirtualBrowser) : FullVirtualBrowser :=
  if b.hasLoop && b.is_running then
    { b with pending := b.pending ++ [Command.back] }
  else b

/-- FullVirtualBrowser.go_forward (lines 362-364). -/
def go_forward (b : FullVirtualBrowser) : FullVirtualBrowser :=
  if b.hasLoop && b.is_running then
    { b with pending := b.pending ++ [Command.forward] }
  else b

/-- FullVirtualBrowser.reload (lines 373-375). -/
def reload (b : FullVirtualBrowser) : FullVirtualBrowser :=
  if b.hasLoop && b.is_running then
    { b with pending := b.pending ++ [Command.reload] }
  else b

/-- FullVirtualBrowser.click_at (lines 385-387). -/
def click_at (b : FullVirtualBrowser) (x y : Int) : FullVirtualBrowser :=
  if b.hasLoop && b.is_running then
    { b with pending := b.pending ++ [Command.click x y] }
  else b

/-- FullVirtualBrowser.scroll_to (lines 399-401): every call schedules its
own _scroll coroutine; no previously scheduled scroll is removed or
replaced. -/
def scroll_to (b : FullVirtualBrowser) (x y : Int) : FullVirtualBrowser :=
  if b.hasLoop && b.is_running then
    { b with pending := b.pending ++ [Command.scroll x y] }
  else b

/-- FullVirtualBrowser.scroll_by (lines 413-415). -/
def scroll_by (b : FullVirtualBrowser) (dx dy : Int) : FullVirtualBrowser :=
  if b.hasLoop && b.is_running then
    { b with pending := b.pending ++ [Command.scrollBy dx dy] }
  else b

/-- FullVirtualBrowser.type_text (lines 427-429). -/
def type_text (b : FullVirtualBrowser) (t : String) : FullVirtualBrowser :=
  if b.hasLoop && b.is_running then
    { b with pending := b.pending ++ [Command.typeText t] }
  else b

/-- FullVirtualBrowser.press_key (lines 441-443). -/
def press_key (b : FullVirtualBrowser) (k : String) : FullVirtualBrowser :=
  if b.hasLoop && b.is_running then
    { b with pending := b.pending ++ [Command.keyPress k] }
  else b

/-- FullVirtualBrowser.key_combination (lines 455-457). -/
def key_combination (b : FullVirtualBrowser) (ks : List String) : FullVirtualBrowser :=
  if b.hasLoop && b.is_running then
    { b with pending := b.pending ++ [Command.keyCombo ks] }
  else b

/-- FullVirtualBrowser.set_url_typing_state (lines 477-479): assigns
self.user_is_typing_url unconditionally, with no run-state gate. -/
def set_url_typing_state (b : FullVirtualBrowser) (is_typing : Bool) : FullVirtualBrowser :=
  { b with user_is_typing_url := is_typing }

/-- FullVirtualBrowser.stop (lines 481-489): clears is_running; the
scheduled _cleanup and loop.stop are asynchronous I/O outside the model. -/
def stop (b : FullVirtualBrowser) : FullVirtualBrowser :=
  { b with is_running := false }

/-- Dispatch of a Command to the browser method that submits it, exactly as
the socket handlers of src/app.py map each browser-* event to one method. -/
def submitCommand (b : FullVirtualBrowser) : Command → FullVirtualBrowser
  | Command.scroll x y => b.scroll_to x y
  | Command.scrollBy dx dy => b.scroll_by dx dy
  | Command.click x y => b.click_at x y
  | Command.navigate u => b.navigate_to u
  | Command.typeText t => b.type_text t
  | Command.keyPress k => b.press_key k
  | Command.keyCombo ks => b.key_combination ks
  | Command.back => b.go_back
  | Command.forward => b.go_forward
  | Command.reload => b.reload

/-- A sequence of command submissions with no intervening consumption by
the event loop. -/
def submitList (b : FullVirtualBrowser) (cs : List Command) : FullVirtualBrowser :=
  cs.foldl submitCommand b

/-- The event loop consuming the next scheduled coroutine: FIFO. -/
def drainOne (b : FullVirtualBrowser) : Option Command × FullVirtualBrowser :=
  match b.pending with
  | [] => (none, b)
  | c :: rest => (some c, { b with pending := rest })

end FullVirtualBrowser

/-- A browser as it stands once _setup_browser has completed (lines
64-149): loop created, page created, is_running true. -/
def readyBrowser : FullVirtualBrowser :=
  { FullVirtualBrowser.init "ROOM" "https://www.webtoon.com" with
      is_running := true, hasLoop := true, hasPage := true }

section C1Lemmas

theorem submitCommand_ready (b : FullVirtualBrowser) (c : Command)
    (hl : b.hasLoop = true) (hr : b.is_running = true) :
    b.submitCommand c = { b with pending := b.pending ++ [c] } := by
  cases c <;>
    simp [FullVirtualBrowser.submitCommand, FullVirtualBrowser.scroll_to,
      FullVirtualBrowser.scroll_by, FullVirtualBrowser.click_at,
      FullVirtualBrowser.navigate_to, FullVirtualBrowser.type_text,
      FullVirtualBrowser.press_key, FullVirtualBrowser.key_combination,
      FullVirtualBrowser.go_back, FullVirtualBrowser.go_forward,
      FullVirtualBrowser.reload, hl, hr]

theorem submitList_ready (cs : List Command) (b : FullVirtualBrowser)
    (hl : b.hasLoop = true) (hr : b.is_running = true) :
    b.submitList cs = { b with pending := b.pending ++ cs } := by
  induction cs generalizing b with
  | nil => simp [FullVirtualBrowser.submitList]
  | cons c rest ih =>
    have hstep := submitCommand_ready b c hl hr
    have : (b.submitCommand c).hasLoop = true ∧ (b.submitCommand c).is_running = true := by
      rw [hstep]; exact ⟨hl, hr⟩
    calc b.submitList (c :: rest)
        = (b.submitCommand c).submitList rest := by
          simp [FullVirtualBrowser.submitList]
      _ = { b.submitCommand c with pending := (b.submitCommand c).pending ++ rest } :=
          ih _ this.1 this.2
      _ = { b with pending := b.pending ++ (c :: rest) } := by
          rw [hstep]; simp

end C1Lemmas

/-- C1: the claim asserts scroll coalescing: with two scroll submissions
and no intervening consumption, only the last scroll should ever be
delivered.  In src/app.py there is no command queue and no coalescing:
scroll_to schedules each _scroll coroutine separately, so the first
drained command after submitting Scroll(0,10) then Scroll(0,20) to a
ready browser is the FIRST scroll, which differs from the last one —
refuting the claim at this concrete input. -/
theorem c1_counterexample :
    (((readyBrowser.scroll_to 0 10).scroll_to 0 20).drainOne).1 =
        some (Command.scroll 0 10) ∧
      Command.scroll 0 10 ≠ Command.scroll 0 20 := by
  constructor
  · rfl
  · decide

/-- C1 amended: no coalescing of any kind happens.  For every sequence of
command submissions to a ready browser with no intervening consumption,
every command — every scroll included — is preserved and scheduled in its
exact relative submission order. -/
theorem c1_all_commands_preserved (b : FullVirtualBrowser) (cs : List Command)
    (hl : b.hasLoop = true) (hr : b.is_running = true) :
    (b.submitList cs).pending = b.pending ++ cs := by
  rw [submitList_ready cs b hl hr]

/-- Witness for c1_all_commands_preserved at a concrete ready browser and
a concrete command sequence containing two scrolls and a click. -/
theorem c1_all_commands_preserved_witness :
    (readyBrowser.submitList
        [Command.scroll 0 10, Command.click 3 4, Command.scroll 0 20]).pending =
      [Command.scroll 0 10, Command.click 3 4, Command.scroll 0 20] :=
  c1_all_commands_preserved readyBrowser
    [Command.scroll 0 10, Command.click 3 4, Command.scroll 0 20] rfl rfl

/-! Association lists standing in for Python dicts: unique keys, insertion
order, assignment replaces in place, del removes the key. -/

/-- Dict lookup: `d.get(k)` / `k in d`. -/
def alookup {α : Type} : List (String × α) → String → Option α
  | [], _ => none
  | (k0, v0) :: rest, k => if k0 = k then some v0 else alookup rest k

/-- Dict assignment `d[k] = v`: replaces an existing binding in place,
appends a new key at the end (dict insertion order). -/
def aset {α : Type} : List (String × α) → String → α → List (String × α)
  | [], k, v => [(k, v)]
  | (k0, v0) :: rest, k, v =>
    if k0 = k then (k, v) :: rest else (k0, v0) :: aset rest k v

/-- Dict deletion `del d[k]`: removes the binding for k. -/
def aerase {α : Type} : List (String × α) → String → List (String × α)
  | [], _ => []
  | (k0, v0) :: rest, k =>
    if k0 = k then aerase rest k else (k0, v0) :: aerase rest k

theorem alookup_aset_self {α : Type} (l : List (String × α)) (k : String) (v : α) :
    alookup (aset l k v) k = some v := by
  induction l with
  | nil => simp [aset, alookup]
  | cons p rest ih =>
    by_cases h : p.1 = k
    · simp [aset, alookup, h]
    · simp [aset, alookup, h, ih]

theorem alookup_aset_ne {α : Type} (l : List (String × α)) (k k' : String) (v : α)
    (h : k' ≠ k) : alookup (aset l k v) k' = alookup l k' := by
  induction l with
  | nil => simp [aset, alookup, Ne.symm h]
  | cons p rest ih =>
    obtain ⟨k0, v0⟩ := p
    by_cases hp : k0 = k
    · subst hp
      simp [aset, alookup, Ne.symm h]
    · simp [aset, alookup, hp, ih]

theorem alookup_aerase_self {α : Type} (l : List (String × α)) (k : String) :
    alookup (aerase l k) k = none := by
  induction l with
  | nil => simp [aerase, alookup]
  | cons p rest ih =>
    by_cases h : p.1 = k
    · simp [aerase, h, ih]
    · simp [aerase, alookup, h, ih]

theorem alookup_aerase_ne {α : Type} (l : List (String × α)) (k k' : String)
    (h : k' ≠ k) : alookup (aerase l k) k' = alookup l k' := by
  induction l with
  | nil => simp [aerase]
  | cons p rest ih =>
    obtain ⟨k0, v0⟩ := p
    by_cases hp : k0 = k
    · subst hp
      simp [aerase, alookup, Ne.symm h, ih]
    · simp [aerase, alookup, hp, ih]

/-! Chat messages. -/

/-- Payload of one chat message as the client sends it; on_chat_message
never inspects its content (it is spread with `{**message, ...}`), so the
spec's ChatMessage fields stand in for the opaque dict. -/
structure ChatMessage where
  author : String
  body : String
  kind : String
  sentAt : Nat
  deriving DecidableEq, Repr

/-- A chat message as broadcast and stored: the inbound payload together
with the server-assigned id (`{**message, 'id': str(uuid.uuid4())}`). -/
structure StoredMessage where
  msg : ChatMessage
  id : String
  deriving DecidableEq, Repr

/-- The chat-log append of on_chat_message (src/app.py lines 715-717):
`room['messages'].append(m)` then, when the length exceeds 100,
`room['messages'] = room['messages'][-100:]` keeps the last 100. -/
def appendChat (msgs : List StoredMessage) (m : StoredMessage) : List StoredMessage :=
  let l := msgs ++ [m]
  if l.length > 100 then l.drop (l.length - 100) else l

theorem appendChat_length_le (msgs : List StoredMessage) (m : StoredMessage) :
    (appendChat msgs m).length ≤ 100 := by
  simp only [appendChat]
  split
  · simp only [List.length_drop]
    omega
  · rename_i hle
    simp only [List.length_append, List.length_cons, List.length_nil] at hle ⊢
    omega

theorem foldl_appendChat_of_le (msgs : List StoredMessage)
    (h : msgs.length ≤ 100) : msgs.foldl appendChat [] = msgs := by
  induction msgs using List.reverseRecOn with
  | nil => rfl
  | append_singleton init last ih =>
    rw [List.foldl_append]
    have hlen : init.length + 1 ≤ 100 := by
      simpa using h
    rw [ih (by omega)]
    have hnot : ¬ (init ++ [last]).length > 100 := by
      simp only [List.length_append, List.length_cons, List.length_nil]
      omega
    simp only [List.foldl_cons, List.foldl_nil, appendChat]
    rw [if_neg hnot]

/-- C2: the chat log never exceeds 100 entries after any post, and after
inserting 101 messages into an empty log the result is exactly the newest
100 in insertion order (the oldest dropped); when the 101 messages are
distinct the oldest is absent from the log. -/
theorem c2_chat_log_bounded :
    (∀ (log : List StoredMessage) (m : StoredMessage),
        (appendChat log m).length ≤ 100) ∧
    (∀ (msgs : List StoredMessage), msgs.length = 101 →
        msgs.foldl appendChat [] = msgs.drop 1) ∧
    (∀ (msgs : List StoredMessage) (m0 : StoredMessage), msgs.length = 101 →
        msgs.Nodup → msgs.head? = some m0 → m0 ∉ msgs.foldl appendChat []) := by
  have hdrop : ∀ (msgs : List StoredMessage), msgs.length = 101 →
      msgs.foldl appendChat [] = msgs.drop 1 := by
    intro msgs h101
    rcases List.eq_nil_or_concat msgs with hnil | ⟨init, last, hconcat⟩
    · simp [hnil] at h101
    · rw [List.concat_eq_append] at hconcat
      subst hconcat
      have hinit : init.length = 100 := by
        simpa using h101
      rw [List.foldl_append, foldl_appendChat_of_le init (by omega)]
      have hlen : (init ++ [last]).length = 101 := by
        simp [hinit]
      have hgt : (init ++ [last]).length > 100 := by omega
      simp only [List.foldl_cons, List.foldl_nil, appendChat]
      rw [if_pos hgt, hlen]
  refine ⟨appendChat_length_le, hdrop, ?_⟩
  intro msgs m0 h101 hnodup hhead
  rw [hdrop msgs h101]
  cases msgs with
  | nil => simp at h101
  | cons a t =>
    have ha : a = m0 := by simpa using hhead
    subst ha
    simp only [List.drop_one, List.tail_cons]
    exact (List.nodup_cons.mp hnodup).1

/-- One concrete stored chat message used by witnesses. -/
def sampleStored : StoredMessage :=
  { msg := { author := "Alice", body := "hi", kind := "user", sentAt := 1 },
    id := "a" }

/-- Witness for c2_chat_log_bounded: at a concrete log of 101 messages the
101-message hypothesis is discharged and the fold drops the oldest entry. -/
theorem c2_chat_log_bounded_witness :
    (appendChat [sampleStored] sampleStored).length ≤ 100 ∧
      (List.replicate 101 sampleStored).foldl appendChat [] =
        (List.replicate 101 sampleStored).drop 1 :=
  ⟨c2_chat_log_bounded.1 _ _, c2_chat_log_bounded.2.1 _ (by simp)⟩

/-! Server→client events and emit targets. -/

/-- One room member as stored in room['users'] and sent in room-users
lists: `{'id': request.sid, 'userName': user_name}`. -/
structure UserInfo where
  id : String
  userName : String
  deriving DecidableEq, Repr

/-- The page metadata returned by the page.evaluate block of
_take_screenshot (src/app.py lines 251-298). -/
structure PageInfo where
  scrollX : Int
  scrollY : Int
  scrollMaxX : Int
  scrollMaxY : Int
  pageWidth : Int
  pageHeight : Int
  hasVideo : Bool
  url : String
  title : String
  deriving DecidableEq, Repr

/-- The payload of one screenshot-update event (frame_data, lines
301-306).  pageUrl is the pageInfo.url entry of the emitted payload,
wrapped in Option so that "the URL field is omitted" is expressible as
none; the code always fills it from the page's own location. -/
structure FrameData where
  screenshot : String
  pageUrl : Option String
  pageTitle : String
  scrollX : Int
  scrollY : Int
  timestamp : Nat
  technology : String
  deriving DecidableEq, Repr

/-- Server→client socket events emitted by src/app.py. -/
inductive ServerEvent where
  | roomNotFound
  | roomUsers (users : List UserInfo)
  | webtoonUrlUpdate (url : String)
  | userJoined (userName : String)
  | userLeft (user : UserInfo)
  | chatMessage (message : StoredMessage)
  | screenshotUpdate (frame : FrameData)
  | urlChanged (url : String)
  | loadingState (loading : Bool)
  | browserError (error : String)
  deriving DecidableEq, Repr

/-- Where an emit call sends its event: `emit(evt)` goes to the requesting
connection only; `emit(evt, room=c)` to every member of channel c;
`emit(evt, room=c, include_self=False)` to every member except the
requester. -/
inductive Target where
  | toSelf
  | toRoom (channel : String)
  | toRoomExceptSelf (channel : String)
  deriving DecidableEq, Repr

/-- One socketio.emit call. -/
structure Emit where
  target : Target
  event : ServerEvent
  deriving DecidableEq, Repr

/-- Emit records addressed to the requesting connection itself. -/
def emitsToSelf (emits : List Emit) : List ServerEvent :=
  (emits.filter fun e =>
    match e.target with
    | Target.toSelf => true
    | _ => false).map Emit.event

/-- FullVirtualBrowser._take_screenshot (src/app.py lines 235-311): when a
page exists, emits screenshot-update whose frame_data always embeds the
full page_info — its url entry included — with no consultation of
user_is_typing_url; when no page exists it returns without emitting. -/
def take_screenshot (b : FullVirtualBrowser) (shot : String) (info : PageInfo)
    (ts : Nat) : Option Emit :=
  if b.hasPage then
    some { target := Target.toRoom b.room_code
           event := ServerEvent.screenshotUpdate
             { screenshot := shot
               pageUrl := some info.url
               pageTitle := info.title
               scrollX := info.scrollX
               scrollY := info.scrollY
               timestamp := ts
               technology := "Playwright Full" } }
  else none

/-- FullVirtualBrowser._on_navigation (src/app.py lines 201-207): on a
main-frame navigation, records the new current_url and emits url-changed
only when the user is not typing in the URL bar. -/
def on_navigation (b : FullVirtualBrowser) (isMainFrame : Bool)
    (frameUrl : String) : FullVirtualBrowser × List Emit :=
  if isMainFrame then
    ({ b with current_url := frameUrl },
      if b.user_is_typing_url then []
      else [{ target := Target.toRoom b.room_code
              event := ServerEvent.urlChanged frameUrl }])
  else (b, [])

/-- C5: the claim asserts that while typingSuppressed is true every event
published by the sampling loop omits the URL field.  In src/app.py the
sampling loop's screenshot-update payload always embeds pageInfo.url —
_take_screenshot never reads user_is_typing_url — so a ready browser with
user_is_typing_url true still publishes a frame whose URL field is
present (some ..., not the omitted none), refuting the claim at this
concrete input. -/
theorem c5_counterexample :
    (take_screenshot { readyBrowser with user_is_typing_url := true } "img"
        { scrollX := 0, scrollY := 42, scrollMaxX := 0, scrollMaxY := 100,
          pageWidth := 1920, pageHeight := 5000, hasVideo := false,
          url := "https://current.example/page", title := "t" } 7).map
        (fun e =>
          match e.event with
          | ServerEvent.screenshotUpdate frame => frame.pageUrl
          | _ => none) =
      some (some "https://current.example/page") ∧
    some "https://current.example/page" ≠ (none : Option String) := by
  constructor
  · rfl
  · decide

/-- C5 amended: the typing flag suppresses navigation-driven url-changed
events entirely (not a field of the frame): while user_is_typing_url is
true a main-frame navigation emits nothing, once it is false the next
main-frame navigation emits url-changed with the new location, and the
sampling loop's screenshot-update always carries the page URL regardless
of the flag. -/
theorem c5_typing_suppression (b : FullVirtualBrowser) (u : String) :
    (b.user_is_typing_url = true → (on_navigation b true u).2 = []) ∧
    (b.user_is_typing_url = false → (on_navigation b true u).2 =
      [{ target := Target.toRoom b.room_code
         event := ServerEvent.urlChanged u }]) ∧
    (∀ (shot : String) (info : PageInfo) (ts : Nat), b.hasPage = true →
      (take_screenshot b shot info ts).map
          (fun e =>
            match e.event with
            | ServerEvent.screenshotUpdate frame => frame.pageUrl
            | _ => none) =
        some (some info.url)) := by
  refine ⟨?_, ?_, ?_⟩
  · intro h
    simp [on_navigation, h]
  · intro h
    simp [on_navigation, h]
  · intro shot info ts h
    simp [take_screenshot, h]

/-- A ready browser whose user is typing in the URL bar. -/
def typingReadyBrowser : FullVirtualBrowser :=
  { readyBrowser with user_is_typing_url := true }

/-- A concrete page_info record used by witnesses. -/
def samplePageInfo : PageInfo :=
  { scrollX := 0, scrollY := 0, scrollMaxX := 0, scrollMaxY := 0,
    pageWidth := 1920, pageHeight := 1080, hasVideo := false,
    url := "https://b.example", title := "t" }

/-- Witness for c5_typing_suppression at concrete browsers: a typing
browser emits no url-changed, a non-typing one emits it, and the frame of
a ready browser carries the page URL. -/
theorem c5_typing_suppression_witness :
    (on_navigation typingReadyBrowser true "https://a.example").2 = [] ∧
    (on_navigation readyBrowser true "https://a.example").2 =
      [{ target := Target.toRoom "ROOM"
         event := ServerEvent.urlChanged "https://a.example" }] ∧
    (take_screenshot readyBrowser "img" samplePageInfo 3).map
        (fun e =>
          match e.event with
          | ServerEvent.screenshotUpdate frame => frame.pageUrl
          | _ => none) =
      some (some "https://b.example") :=
  ⟨(c5_typing_suppression typingReadyBrowser "https://a.example").1 rfl,
   (c5_typing_suppression readyBrowser "https://a.example").2.1 rfl,
   (c5_typing_suppression readyBrowser "https://a.example").2.2 "img"
      samplePageInfo 3 rfl⟩

/-- A freshly constructed, not yet started browser: no loop, not running,
and with the typing flag initially false. -/
def idleBrowser : FullVirtualBrowser :=
  FullVirtualBrowser.init "ROOM" "https://www.webtoon.com"

/-- C6: the claim asserts every controller operation — setTypingSuppressed
included — is a rejection no-op leaving session state unchanged when the
run state is not Ready.  In src/app.py set_url_typing_state assigns
user_is_typing_url with no run-state gate, so calling it on a
not-running browser does change its state, refuting the claim at this
concrete input. -/
theorem c6_counterexample :
    idleBrowser.is_running = false ∧
      idleBrowser.set_url_typing_state true ≠ idleBrowser := by
  constructor
  · rfl
  · decide

/-- C6 amended: each command-submitting operation (navigate, click,
scroll, scroll-by, type, key, key-combo, back, forward, reload) invoked
while `self.loop and self.is_running` is not truthy raises nothing,
schedules no command and leaves the browser unchanged; but
set_url_typing_state is not gated — it always overwrites the
user_is_typing_url flag, even when the run state is not Ready. -/
theorem c6_not_ready_rejection (b : FullVirtualBrowser)
    (h : ¬(b.hasLoop = true ∧ b.is_running = true)) :
    (∀ u, b.navigate_to u = b) ∧
    (∀ x y, b.click_at x y = b) ∧
    (∀ x y, b.scroll_to x y = b) ∧
    (∀ dx dy, b.scroll_by dx dy = b) ∧
    (∀ t, b.type_text t = b) ∧
    (∀ k, b.press_key k = b) ∧
    (∀ ks, b.key_combination ks = b) ∧
    b.go_back = b ∧ b.go_forward = b ∧ b.reload = b ∧
    (∀ v, b.set_url_typing_state v = { b with user_is_typing_url := v }) := by
  have hgate : (b.hasLoop && b.is_running) = false := by
    cases hl : b.hasLoop <;> cases hr : b.is_running <;>
      simp_all
  refine ⟨?_, ?_, ?_, ?_, ?_, ?_, ?_, ?_, ?_, ?_, ?_⟩ <;>
    intros <;>
    simp [FullVirtualBrowser.navigate_to, FullVirtualBrowser.click_at,
      FullVirtualBrowser.scroll_to, FullVirtualBrowser.scroll_by,
      FullVirtualBrowser.type_text, FullVirtualBrowser.press_key,
      FullVirtualBrowser.key_combination, FullVirtualBrowser.go_back,
      FullVirtualBrowser.go_forward, FullVirtualBrowser.reload,
      FullVirtualBrowser.set_url_typing_state, hgate]

/-- Witness for c6_not_ready_rejection at the concrete idle browser. -/
theorem c6_not_ready_rejection_witness :
    idleBrowser.navigate_to "https://a.example" = idleBrowser ∧
      idleBrowser.scroll_to 3 4 = idleBrowser ∧
      idleBrowser.set_url_typing_state true =
        { idleBrowser with user_is_typing_url := true } := by
  have h := c6_not_ready_rejection idleBrowser (by decide)
  exact ⟨h.1 "https://a.example", h.2.2.1 3 4, h.2.2.2.2.2.2.2.2.2.2 true⟩

/-! The global server state and the socket handlers. -/

/-- One room of rooms_data (src/app.py lines 567-573): users keyed by
connection sid, the bounded message log, the shared URL, creation time
and creator name. -/
structure Room where
  users : List (String × UserInfo)
  messages : List StoredMessage
  webtoon_url : String
  created_at : Nat
  creator : String
  deriving DecidableEq, Repr

/-- One entry of user_sessions (lines 557-561). -/
structure UserSession where
  user_name : String
  room_code : String
  is_creator : Bool
  deriving DecidableEq, Repr

/-- The three module-level registries of src/app.py (lines 27-29). -/
structure ServerState where
  rooms : List (String × Room)
  browsers : List (String × FullVirtualBrowser)
  user_sessions : List (String × UserSession)
  deriving DecidableEq, Repr

/-- The empty server just after module load. -/
def emptyState : ServerState :=
  { rooms := [], browsers := [], user_sessions := [] }

/-- An inbound socket event payload: each field is present (some) or
missing (none).  Reading a field with `data[k]` raises KeyError when it
is missing; `data.get(k, d)` falls back to d. -/
structure Payload where
  roomCode : Option String := none
  userName : Option String := none
  isCreator : Option Bool := none
  initialUrl : Option String := none
  url : Option String := none
  text : Option String := none
  key : Option String := none
  keys : Option (List String) := none
  message : Option ChatMessage := none
  x : Option Int := none
  y : Option Int := none
  deltaX : Option Int := none
  deltaY : Option Int := none
  deriving DecidableEq, Repr

/-- The outcome of a handler: either the Python exception that escaped it
(always a KeyError from a missing payload field here) or the updated
registries together with the emit calls the handler made. -/
abbrev HandlerResult := Except String (ServerState × List Emit)

/-- The common tail of on_join_room (src/app.py lines 586-594): look the
room up again, record the member, then emit room-users and
webtoon-url-update to the joiner and user-joined plus room-users to the
other members.  On the paths that reach it the room is always present; a
missing room would be a KeyError, kept as the error case. -/
def join_room_tail (st : ServerState) (sid room_code user_name : String) :
    HandlerResult :=
  match alookup st.rooms room_code with
  | none => Except.error "KeyError"
  | some room =>
    let member : UserInfo := { id := sid, userName := user_name }
    let room' := { room with users := aset room.users sid member }
    let st' := { st with rooms := aset st.rooms room_code room' }
    let room_users := room'.users.map Prod.snd
    Except.ok (st',
      [{ target := Target.toSelf, event := ServerEvent.roomUsers room_users },
       { target := Target.toSelf,
         event := ServerEvent.webtoonUrlUpdate room'.webtoon_url },
       { target := Target.toRoomExceptSelf room_code,
         event := ServerEvent.userJoined user_name },
       { target := Target.toRoomExceptSelf room_code,
         event := ServerEvent.roomUsers room_users }])

/-- on_join_room (src/app.py lines 547-594).  Reads roomCode and userName
(KeyError when missing), records the user session, then: creates the room
and starts a browser when the room is absent and isCreator is truthy,
answers room-not-found when absent and not creator, and otherwise adds
the member and replays room state.  The client-supplied initialUrl is
never read; a fresh room always starts at the hard-wired default URL. -/
def on_join_room (now : Nat) (st : ServerState) (sid : String)
    (data : Payload) : HandlerResult :=
  match data.roomCode with
  | none => Except.error "KeyError"
  | some room_code =>
  match data.userName with
  | none => Except.error "KeyError"
  | some user_name =>
  let is_creator := data.isCreator.getD false
  let sess : UserSession :=
    { user_name := user_name, room_code := room_code, is_creator := is_creator }
  let st1 := { st with user_sessions := aset st.user_sessions sid sess }
  if (alookup st1.rooms room_code).isSome then
    join_room_tail st1 sid room_code user_name
  else if is_creator then
    let default_url := "https://www.webtoon.com"
    let room : Room :=
      { users := [], messages := [], webtoon_url := default_url,
        created_at := now, creator := user_name }
    let browser := FullVirtualBrowser.init room_code default_url
    let st2 := { st1 with
      rooms := aset st1.rooms room_code room,
      browsers := aset st1.browsers room_code browser }
    let startResult := browser.start
    let st3 := { st2 with
      browsers := aset st2.browsers room_code startResult.1 }
    if startResult.2 then
      join_room_tail st3 sid room_code user_name
    else
      Except.ok (st3,
        [{ target := Target.toSelf,
           event := ServerEvent.browserError "Failed to start browser" }])
  else
    Except.ok (st1, [{ target := Target.toSelf, event := ServerEvent.roomNotFound }])

/-- on_browser_navigate (src/app.py lines 597-607): reads roomCode and url
(KeyError when missing); when a browser exists for the room, submits the
navigation and records the url as the room's webtoon_url. -/
def on_browser_navigate (st : ServerState) (data : Payload) : HandlerResult :=
  match data.roomCode with
  | none => Except.error "KeyError"
  | some room_code =>
  match data.url with
  | none => Except.error "KeyError"
  | some url =>
  match alookup st.browsers room_code with
  | none => Except.ok (st, [])
  | some browser =>
    let st1 := { st with
      browsers := aset st.browsers room_code (browser.navigate_to url) }
    let st2 :=
      match alookup st1.rooms room_code with
      | some room =>
        let room1 := { room with webtoon_url := url }
        { st1 with rooms := aset st1.rooms room_code room1 }
      | none => st1
    Except.ok (st2, [])

/-- on_browser_scroll (src/app.py lines 659-667): x and y default to 0 via
data.get; only roomCode is required. -/
def on_browser_scroll (st : ServerState) (data : Payload) : HandlerResult :=
  match data.roomCode with
  | none => Except.error "KeyError"
  | some room_code =>
  match alookup st.browsers room_code with
  | none => Except.ok (st, [])
  | some browser =>
    let b1 := browser.scroll_to (data.x.getD 0) (data.y.getD 0)
    Except.ok ({ st with browsers := aset st.browsers room_code b1 }, [])

/-- on_browser_click (src/app.py lines 649-657). -/
def on_browser_click (st : ServerState) (data : Payload) : HandlerResult :=
  match data.roomCode with
  | none => Except.error "KeyError"
  | some room_code =>
  match alookup st.browsers room_code with
  | none => Except.ok (st, [])
  | some browser =>
    let b1 := browser.click_at (data.x.getD 0) (data.y.getD 0)
    Except.ok ({ st with browsers := aset st.browsers room_code b1 }, [])

/-- on_browser_type (src/app.py lines 679-686): text is required. -/
def on_browser_type (st : ServerState) (data : Payload) : HandlerResult :=
  match data.roomCode with
  | none => Except.error "KeyError"
  | some room_code =>
  match data.text with
  | none => Except.error "KeyError"
  | some t =>
  match alookup st.browsers room_code with
  | none => Except.ok (st, [])
  | some browser =>
    let b1 := browser.type_text t
    Except.ok ({ st with browsers := aset st.browsers room_code b1 }, [])

/-- on_browser_key (src/app.py lines 688-695): key is required. -/
def on_browser_key (st : ServerState) (data : Payload) : HandlerResult :=
  match data.roomCode with
  | none => Except.error "KeyError"
  | some room_code =>
  match data.key with
  | none => Except.error "KeyError"
  | some k =>
  match alookup st.browsers room_code with
  | none => Except.ok (st, [])
  | some browser =>
    let b1 := browser.press_key k
    Except.ok ({ st with browsers := aset st.browsers room_code b1 }, [])

/-- on_browser_key_combo (src/app.py lines 697-704): keys is required. -/
def on_browser_key_combo (st : ServerState) (data : Payload) : HandlerResult :=
  match data.roomCode with
  | none => Except.error "KeyError"
  | some room_code =>
  match data.keys with
  | none => Except.error "KeyError"
  | some ks =>
  match alookup st.browsers room_code with
  | none => Except.ok (st, [])
  | some browser =>
    let b1 := browser.key_combination ks
    Except.ok ({ st with browsers := aset st.browsers room_code b1 }, [])

/-- on_chat_message (src/app.py lines 706-719): reads roomCode and message
(KeyError when missing), stamps the message with the freshly generated
uuid, appends it to the room's bounded log only when the room exists, and
in every case broadcasts the stamped message to the room's channel. -/
def on_chat_message (freshId : String) (st : ServerState)
    (data : Payload) : HandlerResult :=
  match data.roomCode with
  | none => Except.error "KeyError"
  | some room_code =>
  match data.message with
  | none => Except.error "KeyError"
  | some message =>
  let message_with_id : StoredMessage := { msg := message, id := freshId }
  let st' :=
    match alookup st.rooms room_code with
    | some room =>
      let room1 := { room with messages := appendChat room.messages message_with_id }
      { st with rooms := aset st.rooms room_code room1 }
    | none => st
  Except.ok (st',
    [{ target := Target.toRoom room_code,
       event := ServerEvent.chatMessage message_with_id }])

/-- Result of handle_user_leave: the updated registries, the emit calls,
and the browser object as it stands after its stop() call when the last
member's departure tore the room down (the code then discards it). -/
structure LeaveResult where
  state : ServerState
  emits : List Emit
  stoppedBrowser : Option FullVirtualBrowser
  deriving DecidableEq, Repr

/-- handle_user_leave (src/app.py lines 721-746): no-op when the room code
is missing or unknown; otherwise removes the member, emits user-left and
the updated room-users, and — when the room became empty — stops and
removes the browser and deletes the room.  The user_sessions entry is
removed on every path that passes the room check. -/
def handle_user_leave (st : ServerState) (sid : String)
    (room_codeOpt : Option String) : LeaveResult :=
  match room_codeOpt with
  | none => { state := st, emits := [], stoppedBrowser := none }
  | some room_code =>
  match alookup st.rooms room_code with
  | none => { state := st, emits := [], stoppedBrowser := none }
  | some room =>
  match alookup room.users sid with
  | some user =>
    let room1 := { room with users := aerase room.users sid }
    let st1 := { st with rooms := aset st.rooms room_code room1 }
    let emits :=
      [{ target := Target.toRoom room_code, event := ServerEvent.userLeft user },
       { target := Target.toRoom room_code,
         event := ServerEvent.roomUsers (room1.users.map Prod.snd) }]
    let cleaned :=
      if room1.users.length = 0 then
        match alookup st1.browsers room_code with
        | some browser =>
          ({ st1 with
              rooms := aerase st1.rooms room_code,
              browsers := aerase st1.browsers room_code },
            some browser.stop)
        | none =>
          ({ st1 with rooms := aerase st1.rooms room_code }, none)
      else (st1, none)
    { state := { cleaned.1 with
        user_sessions := aerase cleaned.1.user_sessions sid },
      emits := emits,
      stoppedBrowser := cleaned.2 }
  | none =>
    { state := { st with user_sessions := aerase st.user_sessions sid },
      emits := [], stoppedBrowser := none }

/-! The HTTP surface. -/

/-- JSON values appearing in the two API responses. -/
inductive JVal where
  | s (v : String)
  | n (v : Nat)
  | b (v : Bool)
  | strs (v : List String)
  deriving DecidableEq, Repr

/-- GET /health (src/app.py lines 512-520): a fixed five-field object
whose rooms and active_browsers counts mirror the registries. -/
def health (st : ServerState) : List (String × JVal) :=
  [("status", JVal.s "ok"),
   ("technology", JVal.s "Playwright Full Browser"),
   ("rooms", JVal.n st.rooms.length),
   ("active_browsers", JVal.n st.browsers.length),
   ("features", JVal.strs
     ["typing", "scrolling", "clicking", "navigation", "keyboard_shortcuts", "forms"])]

/-- GET /api/room/room_code (src/app.py lines 522-533): the room summary
with HTTP 200 when the room exists, otherwise a 404 error object. -/
def get_room_info (st : ServerState) (room_code : String) :
    Nat × List (String × JVal) :=
  match alookup st.rooms room_code with
  | some room =>
    (200, [("roomCode", JVal.s room_code),
           ("userCount", JVal.n room.users.length),
           ("contentUrl", JVal.s room.webtoon_url),
           ("exists", JVal.b true)])
  | none =>
    (404, [("error", JVal.s "Room not found"), ("exists", JVal.b false)])

/-! Concrete states shared by witnesses. -/

/-- A payload with every field missing. -/
def emptyPayload : Payload := {}

/-- One-member room used by witnesses. -/
def sampleRoom : Room :=
  { users := [("sid1", { id := "sid1", userName := "Alice" })],
    messages := [], webtoon_url := "https://www.webtoon.com",
    created_at := 0, creator := "Alice" }

/-- A server with one room, its browser, and its single member. -/
def sampleState : ServerState :=
  { rooms := [("ROOM", sampleRoom)],
    browsers := [("ROOM", readyBrowser)],
    user_sessions :=
      [("sid1", { user_name := "Alice", room_code := "ROOM", is_creator := true })] }

/-- C3: a join-room request for an unknown room id with isCreator false
answers room-not-found to the requester only, creates no room and starts
no browser; the only registry touched is user_sessions, which records the
requester's session before the room check, exactly as lines 547-584 do. -/
theorem c3_join_unknown_room_rejected (now : Nat) (st : ServerState)
    (sid room_code user_name : String) (data : Payload)
    (hrc : data.roomCode = some room_code)
    (hun : data.userName = some user_name)
    (hic : data.isCreator.getD false = false)
    (habs : alookup st.rooms room_code = none) :
    ∃ sessions',
      on_join_room now st sid data =
        Except.ok (ServerState.mk st.rooms st.browsers sessions',
          [{ target := Target.toSelf, event := ServerEvent.roomNotFound }]) := by
  refine ⟨aset st.user_sessions sid
    { user_name := user_name, room_code := room_code, is_creator := false }, ?_⟩
  simp [on_join_room, hrc, hun, hic, habs]

/-- Witness for c3_join_unknown_room_rejected: a concrete non-creator join
of an unknown room on the empty server. -/
theorem c3_join_unknown_room_rejected_witness :
    ∃ sessions',
      on_join_room 0 emptyState "sid9"
          { roomCode := some "NOPE", userName := some "Bob" } =
        Except.ok (ServerState.mk [] [] sessions',
          [{ target := Target.toSelf, event := ServerEvent.roomNotFound }]) :=
  c3_join_unknown_room_rejected 0 emptyState "sid9" "NOPE" "Bob"
    { roomCode := some "NOPE", userName := some "Bob" } rfl rfl rfl rfl

/-- C4: when the member being removed is the last one, handle_user_leave
deletes the room, stops the browser (its is_running flag drops to false)
and removes it from the registry, so no zero-member room persists; when
other members remain the room stays, with only that member removed. -/
theorem c4_room_teardown (st : ServerState) (sid room_code : String)
    (room : Room) (user : UserInfo)
    (hroom : alookup st.rooms room_code = some room)
    (huser : alookup room.users sid = some user) :
    (aerase room.users sid = [] →
      alookup (handle_user_leave st sid (some room_code)).state.rooms room_code
          = none ∧
      alookup (handle_user_leave st sid (some room_code)).state.browsers room_code
          = none ∧
      (∀ b, alookup st.browsers room_code = some b →
        (handle_user_leave st sid (some room_code)).stoppedBrowser = some b.stop ∧
        b.stop.is_running = false)) ∧
    (aerase room.users sid ≠ [] →
      alookup (handle_user_leave st sid (some room_code)).state.rooms room_code =
        some { room with users := aerase room.users sid }) := by
  constructor
  · intro hempty
    have hlen : ({ room with users := aerase room.users sid } : Room).users.length = 0 := by
      simp [hempty]
    refine ⟨?_, ?_, ?_⟩
    · cases hb : alookup st.browsers room_code <;>
        simp [handle_user_leave, hroom, huser, hempty, hb, alookup_aerase_self]
    · cases hb : alookup st.browsers room_code <;>
        simp [handle_user_leave, hroom, huser, hempty, hb, alookup_aerase_self]
    · intro b hb
      simp [handle_user_leave, hroom, huser, hempty, hb,
        FullVirtualBrowser.stop]
  · intro hne
    have hlen : ¬ ({ room with users := aerase room.users sid } : Room).users.length = 0 := by
      simpa [List.length_eq_zero] using hne
    simp [handle_user_leave, hroom, huser, hlen, alookup_aset_self]

/-- A second member of room ROOM, for the remaining-members case. -/
def sampleRoomTwo : Room :=
  { sampleRoom with users := sampleRoom.users ++
      [("sid2", { id := "sid2", userName := "Bob" })] }

/-- sampleState with a second member in the room. -/
def sampleStateTwo : ServerState :=
  { sampleState with rooms := [("ROOM", sampleRoomTwo)] }

/-- Witness for c4_room_teardown: on the one-member room the departure
tears everything down, and on the two-member room the room survives with
only the leaver removed. -/
theorem c4_room_teardown_witness :
    (alookup (handle_user_leave sampleState "sid1" (some "ROOM")).state.rooms "ROOM"
        = none ∧
      alookup (handle_user_leave sampleState "sid1" (some "ROOM")).state.browsers "ROOM"
        = none ∧
      (handle_user_leave sampleState "sid1" (some "ROOM")).stoppedBrowser =
        some readyBrowser.stop ∧
      readyBrowser.stop.is_running = false) ∧
    alookup (handle_user_leave sampleStateTwo "sid1" (some "ROOM")).state.rooms "ROOM" =
      some { sampleRoomTwo with users := aerase sampleRoomTwo.users "sid1" } := by
  have h1 := c4_room_teardown sampleState "sid1" "ROOM" sampleRoom
    { id := "sid1", userName := "Alice" } rfl rfl
  have h2 := c4_room_teardown sampleStateTwo "sid1" "ROOM" sampleRoomTwo
    { id := "sid1", userName := "Alice" } rfl rfl
  have he : aerase sampleRoom.users "sid1" = [] := rfl
  have hne : aerase sampleRoomTwo.users "sid1" ≠ [] := by decide
  obtain ⟨ha, hb, hc⟩ := h1.1 he
  have hd := hc readyBrowser rfl
  exact ⟨⟨ha, hb, hd.1, hd.2⟩, h2.2 hne⟩

/-- C7: the claim asserts GET /health returns exactly the fields status,
rooms, activeBrowsers and timestamp.  The code's response (src/app.py
lines 512-520) has the fields status, technology, rooms, active_browsers
and features — no timestamp field at all and no activeBrowsers key —
refuting the claim on the empty server. -/
theorem c7_counterexample :
    ((health emptyState).map Prod.fst =
        ["status", "technology", "rooms", "active_browsers", "features"]) ∧
      "timestamp" ∉ (health emptyState).map Prod.fst := by
  constructor
  · rfl
  · decide

/-- C7 amended: GET /health returns exactly the fields status, technology,
rooms, active_browsers and features, with rooms counting the registry's
rooms and active_browsers its browsers; GET /api/room/room_code returns
HTTP 200 with roomCode, userCount, contentUrl and exists=true for an
existing room and HTTP 404 with error and exists=false otherwise. -/
theorem c7_http_surface (st : ServerState) (room_code : String) :
    ((health st).map Prod.fst =
        ["status", "technology", "rooms", "active_browsers", "features"]) ∧
    alookup (health st) "rooms" = some (JVal.n st.rooms.length) ∧
    alookup (health st) "active_browsers" = some (JVal.n st.browsers.length) ∧
    (∀ room, alookup st.rooms room_code = some room →
      get_room_info st room_code =
        (200, [("roomCode", JVal.s room_code),
               ("userCount", JVal.n room.users.length),
               ("contentUrl", JVal.s room.webtoon_url),
               ("exists", JVal.b true)])) ∧
    (alookup st.rooms room_code = none →
      get_room_info st room_code =
        (404, [("error", JVal.s "Room not found"), ("exists", JVal.b false)])) := by
  refine ⟨rfl, ?_, ?_, ?_, ?_⟩
  · simp [health, alookup]
  · simp [health, alookup]
  · intro room hroom
    simp [get_room_info, hroom]
  · intro habs
    simp [get_room_info, habs]

/-- Witness for c7_http_surface: the room-info responses at the sample
server, for its existing room and for an unknown code. -/
theorem c7_http_surface_witness :
    get_room_info sampleState "ROOM" =
      (200, [("roomCode", JVal.s "ROOM"),
             ("userCount", JVal.n 1),
             ("contentUrl", JVal.s "https://www.webtoon.com"),
             ("exists", JVal.b true)]) ∧
    get_room_info sampleState "NOPE" =
      (404, [("error", JVal.s "Room not found"), ("exists", JVal.b false)]) :=
  ⟨(c7_http_surface sampleState "ROOM").2.2.2.1 sampleRoom rfl,
   (c7_http_surface sampleState "NOPE").2.2.2.2 rfl⟩

/-- A creator's join payload carrying an explicit initialUrl. -/
def creatorPayload : Payload :=
  { roomCode := some "ROOM", userName := some "Alice", isCreator := some true,
    initialUrl := some "https://example.com" }

/-- The events the requesting connection receives from a handler result,
empty when the handler raised. -/
def selfEventsOf (r : HandlerResult) : List ServerEvent :=
  match r with
  | Except.ok (_, emits) => emitsToSelf emits
  | Except.error _ => []

/-- C8: the claim promises the joiner of a fresh room a webtoon-url-update
carrying the creator's initial URL, plus a screenshot-update replay when a
frame exists.  In src/app.py on_join_room never reads the client's
initialUrl — a fresh room always starts at the hard-wired
https://www.webtoon.com — and no screenshot-update is ever emitted at
join: with Alice creating room ROOM and supplying initialUrl
https://example.com, she receives exactly room-users and a
webtoon-url-update carrying the default URL, not her initial URL. -/
theorem c8_counterexample :
    selfEventsOf (on_join_room 0 emptyState "sid1" creatorPayload) =
      [ServerEvent.roomUsers [{ id := "sid1", userName := "Alice" }],
       ServerEvent.webtoonUrlUpdate "https://www.webtoon.com"] ∧
    ("https://www.webtoon.com" : String) ≠ "https://example.com" := by
  constructor
  · rfl
  · decide

/-- C8 amended: a successful join answers the joiner exactly room-users
(listing every member, the joiner included) and webtoon-url-update
carrying the room's stored URL — for a fresh room the hard-wired default
URL, regardless of any client-supplied initialUrl — and never any
screenshot-update replay. -/
theorem c8_join_replay (now : Nat) (st : ServerState)
    (sid room_code user_name : String) (data : Payload)
    (hrc : data.roomCode = some room_code)
    (hun : data.userName = some user_name) :
    (∀ room, alookup st.rooms room_code = some room →
      selfEventsOf (on_join_room now st sid data) =
        [ServerEvent.roomUsers
            ((aset room.users sid { id := sid, userName := user_name }).map Prod.snd),
         ServerEvent.webtoonUrlUpdate room.webtoon_url]) ∧
    (alookup st.rooms room_code = none → data.isCreator.getD false = true →
      selfEventsOf (on_join_room now st sid data) =
        [ServerEvent.roomUsers [{ id := sid, userName := user_name }],
         ServerEvent.webtoonUrlUpdate "https://www.webtoon.com"]) ∧
    (∀ frame, ServerEvent.screenshotUpdate frame ∉
        selfEventsOf (on_join_room now st sid data)) := by
  refine ⟨?_, ?_, ?_⟩
  · intro room hroom
    simp [on_join_room, hrc, hun, hroom, join_room_tail, selfEventsOf,
      emitsToSelf]
  · intro habs hic
    simp [on_join_room, hrc, hun, habs, hic, FullVirtualBrowser.start,
      join_room_tail, alookup_aset_self, aset, selfEventsOf, emitsToSelf]
  · intro frame
    by_cases hroom : (alookup st.rooms room_code).isSome
    · obtain ⟨room, hr⟩ := Option.isSome_iff_exists.mp hroom
      simp [on_join_room, hrc, hun, hr, join_room_tail, selfEventsOf,
        emitsToSelf]
    · have habs : alookup st.rooms room_code = none := by
        cases h : alookup st.rooms room_code <;> simp_all
      by_cases hic : data.isCreator.getD false = true
      · simp [on_join_room, hrc, hun, habs, hic, FullVirtualBrowser.start,
          join_room_tail, alookup_aset_self, aset, selfEventsOf, emitsToSelf]
      · have hic' : data.isCreator.getD false = false := by
          cases h : data.isCreator.getD false <;> simp_all
        simp [on_join_room, hrc, hun, habs, hic', selfEventsOf, emitsToSelf]

/-- Witness for c8_join_replay: Bob joins the existing sample room and
receives the member list with both users and the room's URL, and no
screenshot-update is among his events. -/
theorem c8_join_replay_witness :
    selfEventsOf (on_join_room 0 sampleState "sid2"
        { roomCode := some "ROOM", userName := some "Bob" }) =
      [ServerEvent.roomUsers
          [{ id := "sid1", userName := "Alice" }, { id := "sid2", userName := "Bob" }],
       ServerEvent.webtoonUrlUpdate "https://www.webtoon.com"] ∧
    ServerEvent.screenshotUpdate
        { screenshot := "", pageUrl := none, pageTitle := "", scrollX := 0,
          scrollY := 0, timestamp := 0, technology := "" } ∉
      selfEventsOf (on_join_room 0 sampleState "sid2"
        { roomCode := some "ROOM", userName := some "Bob" }) :=
  ⟨(c8_join_replay 0 sampleState "sid2" "ROOM" "Bob"
      { roomCode := some "ROOM", userName := some "Bob" } rfl rfl).1
      sampleRoom rfl,
   (c8_join_replay 0 sampleState "sid2" "ROOM" "Bob"
      { roomCode := some "ROOM", userName := some "Bob" } rfl rfl).2.2 _⟩

/-- C9: the claim asserts handlers never propagate an exception on a
malformed payload.  Every required field is read with a bare subscript,
so a payload missing it makes the handler raise KeyError (the model's
Except.error): a chat-message with no message field, a join-room with no
fields, and a browser-navigate with no url all escape with KeyError,
refuting the never-raises claim — though, the reads coming first, nothing
was broadcast and no registry was touched. -/
theorem c9_counterexample :
    on_chat_message "u1" emptyState { roomCode := some "ROOM" } =
        Except.error "KeyError" ∧
      on_join_room 0 emptyState "sid1" emptyPayload = Except.error "KeyError" ∧
      on_browser_navigate emptyState { roomCode := some "ROOM" } =
        Except.error "KeyError" :=
  ⟨rfl, rfl, rfl⟩

/-- C9 amended: a payload missing a required field makes the handler raise
KeyError before any emit call and before any registry or browser
mutation, so the event's net effect is a drop — no broadcast, no state
change — but it is delivered via a propagated exception (caught by the
socket framework), not a silent in-handler drop. -/
theorem c9_malformed_payload_keyerror (now : Nat) (freshId : String)
    (st : ServerState) (sid : String) (data : Payload) :
    (data.roomCode = none →
      on_join_room now st sid data = Except.error "KeyError" ∧
      on_browser_navigate st data = Except.error "KeyError" ∧
      on_browser_scroll st data = Except.error "KeyError" ∧
      on_browser_click st data = Except.error "KeyError" ∧
      on_browser_type st data = Except.error "KeyError" ∧
      on_browser_key st data = Except.error "KeyError" ∧
      on_browser_key_combo st data = Except.error "KeyError" ∧
      on_chat_message freshId st data = Except.error "KeyError") ∧
    (data.userName = none → on_join_room now st sid data = Except.error "KeyError") ∧
    (data.url = none → on_browser_navigate st data = Except.error "KeyError") ∧
    (data.text = none → on_browser_type st data = Except.error "KeyError") ∧
    (data.key = none → on_browser_key st data = Except.error "KeyError") ∧
    (data.keys = none → on_browser_key_combo st data = Except.error "KeyError") ∧
    (data.message = none →
      on_chat_message freshId st data = Except.error "KeyError") := by
  refine ⟨?_, ?_, ?_, ?_, ?_, ?_, ?_⟩
  · intro h
    refine ⟨?_, ?_, ?_, ?_, ?_, ?_, ?_, ?_⟩ <;>
      simp [on_join_room, on_browser_navigate, on_browser_scroll,
        on_browser_click, on_browser_type, on_browser_key,
        on_browser_key_combo, on_chat_message, h]
  · intro h
    cases hrc : data.roomCode <;> simp [on_join_room, hrc, h]
  · intro h
    cases hrc : data.roomCode <;> simp [on_browser_navigate, hrc, h]
  · intro h
    cases hrc : data.roomCode <;> simp [on_browser_type, hrc, h]
  · intro h
    cases hrc : data.roomCode <;> simp [on_browser_key, hrc, h]
  · intro h
    cases hrc : data.roomCode <;> simp [on_browser_key_combo, hrc, h]
  · intro h
    cases hrc : data.roomCode <;> simp [on_chat_message, hrc, h]

/-- Witness for c9_malformed_payload_keyerror at the empty payload on the
sample server. -/
theorem c9_malformed_payload_keyerror_witness :
    on_join_room 0 sampleState "sid1" emptyPayload = Except.error "KeyError" ∧
      on_chat_message "u1" sampleState emptyPayload = Except.error "KeyError" :=
  ⟨((c9_malformed_payload_keyerror 0 "u1" sampleState "sid1" emptyPayload).1 rfl).1,
   ((c9_malformed_payload_keyerror 0 "u1" sampleState "sid1" emptyPayload).1 rfl).2.2.2.2.2.2.2⟩

/-- C10: a chat-message naming an unknown room still gets the freshly
generated id attached and is broadcast to that room code's channel while
the registry is left untouched; storage into a chat log happens exactly
when the room exists. -/
theorem c10_chat_unknown_room (freshId : String) (st : ServerState)
    (data : Payload) (room_code : String) (message : ChatMessage)
    (hrc : data.roomCode = some room_code)
    (hmsg : data.message = some message) :
    (alookup st.rooms room_code = none →
      on_chat_message freshId st data =
        Except.ok (st,
          [{ target := Target.toRoom room_code,
             event := ServerEvent.chatMessage { msg := message, id := freshId } }])) ∧
    (∀ room, alookup st.rooms room_code = some room →
      on_chat_message freshId st data =
        Except.ok (ServerState.mk
            (aset st.rooms room_code
              (Room.mk room.users
                (appendChat room.messages { msg := message, id := freshId })
                room.webtoon_url room.created_at room.creator))
            st.browsers st.user_sessions,
          [{ target := Target.toRoom room_code,
             event := ServerEvent.chatMessage { msg := message, id := freshId } }])) := by
  constructor
  · intro habs
    simp [on_chat_message, hrc, hmsg, habs]
  · intro room hroom
    simp [on_chat_message, hrc, hmsg, hroom]

/-- Witness for c10_chat_unknown_room: a message to the unknown room GHOST
on the sample server is broadcast with its id while the state is
unchanged. -/
theorem c10_chat_unknown_room_witness :
    on_chat_message "u7" sampleState
        { roomCode := some "GHOST",
          message := some { author := "Alice", body := "anyone?", kind := "user", sentAt := 5 } } =
      Except.ok (sampleState,
        [{ target := Target.toRoom "GHOST",
           event := ServerEvent.chatMessage
             { msg := { author := "Alice", body := "anyone?", kind := "user", sentAt := 5 },
               id := "u7" } }]) :=
  (c10_chat_unknown_room "u7" sampleState
      { roomCode := some "GHOST",
        message := some { author := "Alice", body := "anyone?", kind := "user", sentAt := 5 } }
      "GHOST" { author := "Alice", body := "anyone?", kind := "user", sentAt := 5 }
      rfl rfl).1 rfl

end ComicSync
